import Mathlib

/-!
Shallow embedding of the obstacle-lifecycle / spawn-density core of the
lane-based endless-driving game, translated from the JavaScript sources:

* config constants          (src/config/constants.js)
* Player state machine      (src/game/player/Player.js)
* DifficultyManager         (src/game/difficulty/DifficultyManager.js)
* BaseObstacle and subclasses (src/game/obstacles/BaseObstacle.js,
  OncomingObstacle.js, SameDirectionObstacle.js, StaticObstacle.js)
* ObstacleFactory           (src/game/obstacles/ObstacleFactory.js)
* ObstacleManager           (density-gated spawn engine, src/game/obstacles/ObstacleManager.js)
* legacy Obstacles module   (fixed-wave spawn engine, src/modules/obstacles.js)

JavaScript numbers are modelled as exact rationals (ℚ); gear levels and
difficulty levels, which are always integers in the source, as ℕ; the
millisecond timestamps produced by Date.now() as ℤ.  Meshes are always
present on players and obstacles in the source (every constructor either
clones a model or builds a fallback box), so mesh positions are embedded
as plain coordinate fields.
-/

/- The Batteries rational arithmetic primitives are irreducible by
default; concrete witness states and counterexample traces below are
evaluated definitionally, which needs them unfolded. -/
unseal Rat.mul Rat.add Rat.sub Rat.inv

namespace Drive

/-! ## Constants (src/config/constants.js) -/

def ROAD_WIDTH : ℚ := 5

def LANE_WIDTH : ℚ := ROAD_WIDTH / 4

def ROAD_SEGMENT_LENGTH : ℚ := 10

def NUM_ROAD_SEGMENTS : ℚ := 5

def SCROLL_SPEED : ℚ := 1/20

def CAR_WIDTH : ℚ := LANE_WIDTH * (7/10)

def CAR_LENGTH : ℚ := CAR_WIDTH * (9/5)

def GEAR_SHIFT_COOLDOWN : ℤ := 200

def MIN_ADJACENT_SPAWN_DISTANCE_Z : ℚ := CAR_LENGTH * 3

def SLOW_CAR_SPEED_FACTOR : ℚ := -(3/10)

def ONCOMING_CAR_FIXED_SPEED : ℚ := 1/10

def ONCOMING_CAR_SPEED_GEAR_SCALING : ℚ := 1/200

def ORTHO_CAMERA_VIEW_HEIGHT : ℚ := 25

def OBSTACLE_SPAWN_INTERVAL : ℚ := 2

/-- The four lane-center X positions (left shoulder, left lane, right lane,
right shoulder). -/
def lanePositions : Fin 4 → ℚ :=
  ![-(LANE_WIDTH * (3/2)), -(LANE_WIDTH * (1/2)), LANE_WIDTH * (1/2), LANE_WIDTH * (3/2)]

def START_LANE_INDEX : Fin 4 := 2

/-- Modelled from the spec: the fixed interval of accumulated braking time
after which gear drops by one (`BRAKE_GEAR_REDUCTION_INTERVAL`); the
revision of config/constants.js that defines its numeric value is not in
the source snapshot.  None of the theorems below depend on the value. -/
def BRAKE_GEAR_REDUCTION_INTERVAL : ℚ := 1

/-- Modelled from the spec: the player's fixed initial Z position
(`INITIAL_PLAYER_Z`); numeric value missing from the snapshot and
irrelevant to every claim. -/
def INITIAL_PLAYER_Z : ℚ := 0

/-! ## Difficulty controller (src/game/difficulty/DifficultyManager.js) -/

structure DifficultyParams where
  threshold : ℚ
  level : ℕ
  name : String
  targetDensity : ℚ
  slowCarSpeedFactor : ℚ
  deriving DecidableEq

def tierEasy : DifficultyParams :=
  { threshold := 0, level := 1, name := "Easy", targetDensity := 3/2,
    slowCarSpeedFactor := SLOW_CAR_SPEED_FACTOR }

def tierMedium : DifficultyParams :=
  { threshold := 500, level := 2, name := "Medium", targetDensity := 2,
    slowCarSpeedFactor := SLOW_CAR_SPEED_FACTOR * (11/10) }

def tierHard : DifficultyParams :=
  { threshold := 1500, level := 3, name := "Hard", targetDensity := 5/2,
    slowCarSpeedFactor := SLOW_CAR_SPEED_FACTOR * (6/5) }

def tierVeryHard : DifficultyParams :=
  { threshold := 3000, level := 4, name := "Very Hard", targetDensity := 3,
    slowCarSpeedFactor := SLOW_CAR_SPEED_FACTOR * (13/10) }

def tierInsane : DifficultyParams :=
  { threshold := 5000, level := 5, name := "Insane", targetDensity := 7/2,
    slowCarSpeedFactor := SLOW_CAR_SPEED_FACTOR * (7/5) }

def DIFFICULTY_LEVELS : List DifficultyParams :=
  [tierEasy, tierMedium, tierHard, tierVeryHard, tierInsane]

/-- getParamsForScore: scan DIFFICULTY_LEVELS from the highest index down
and return the first tier whose threshold the score reaches, defaulting to
the first (Easy) tier. -/
def getParamsForScore (score : ℚ) : DifficultyParams :=
  (DIFFICULTY_LEVELS.reverse.find? (fun t => t.threshold ≤ score)).getD tierEasy

/-! ## Player state machine (src/game/player/Player.js) -/

structure PlayerState where
  currentLaneIndex : Fin 4
  currentGear : ℕ
  lastShiftTime : ℤ
  isChangingLanes : Bool
  isBraking : Bool
  brakeTimer : ℚ
  posX : ℚ
  posZ : ℚ
  deriving DecidableEq

/-- State produced by the Player constructor (the mesh is placed at the
start lane and INITIAL_PLAYER_Z; all flags cleared, gear 1). -/
def initialPlayer : PlayerState :=
  { currentLaneIndex := START_LANE_INDEX, currentGear := 1, lastShiftTime := 0,
    isChangingLanes := false, isBraking := false, brakeTimer := 0,
    posX := lanePositions START_LANE_INDEX, posZ := INITIAL_PLAYER_Z }

def stopBraking (s : PlayerState) : PlayerState :=
  if s.isBraking then { s with isBraking := false, brakeTimer := 0 } else s

def startBraking (s : PlayerState) : PlayerState :=
  if 1 < s.currentGear then { s with isBraking := true, brakeTimer := 0 } else s

/-- shiftGearUp: braking is cancelled first, then the cooldown gate may
still abort the actual gear change. `now` is the Date.now() timestamp. -/
def shiftGearUp (now : ℤ) (s : PlayerState) : PlayerState :=
  let s1 := stopBraking s
  if now - s1.lastShiftTime < GEAR_SHIFT_COOLDOWN then s1
  else { s1 with currentGear := s1.currentGear + 1, lastShiftTime := now }

def shiftGearDown (now : ℤ) (s : PlayerState) : PlayerState :=
  if now - s.lastShiftTime < GEAR_SHIFT_COOLDOWN then s
  else { s with currentGear := max 1 (s.currentGear - 1), lastShiftTime := now }

def lerp (a b t : ℚ) : ℚ := a + (b - a) * t

/-- The lane-interpolation / snapping half of Player.update: set or clear
isChangingLanes against the proximity threshold 0.05, record the target as
the current lane index, and lerp or snap the X position. -/
def laneChangePart (delta : ℚ) (targetLaneIndex : Fin 4) (s : PlayerState) : PlayerState :=
  let targetX := lanePositions targetLaneIndex
  let currentX := s.posX
  let s1 :=
    if 1/20 < |currentX - targetX| then { s with isChangingLanes := true }
    else { s with posX := targetX, isChangingLanes := false }
  let s2 := { s1 with currentLaneIndex := targetLaneIndex }
  if s2.isChangingLanes then { s2 with posX := lerp currentX targetX (delta * 10) }
  else s2

/-- The gradual-braking half of Player.update: while braking in a gear
above 1, accumulate delta into the brake timer; once the fixed interval has
elapsed, drop one gear, reset the timer and auto-stop braking on reaching
gear 1. -/
def brakingPart (delta : ℚ) (s : PlayerState) : PlayerState :=
  if s.isBraking ∧ 1 < s.currentGear then
    let bt := s.brakeTimer + delta
    if BRAKE_GEAR_REDUCTION_INTERVAL ≤ bt then
      let g := s.currentGear - 1
      let s4 := { s with currentGear := g, brakeTimer := 0 }
      if g = 1 then stopBraking s4 else s4
    else { s with brakeTimer := bt }
  else s

/-- Player.update(delta, targetLaneIndex): lane interpolation / snapping,
then the gradual-braking block.  The bounding-box recomputation has no
effect on any state field embedded here. -/
def playerUpdate (delta : ℚ) (targetLaneIndex : Fin 4) (s : PlayerState) : PlayerState :=
  brakingPart delta (laneChangePart delta targetLaneIndex s)

/-- Player.reset(): restores lane, cooldown timer, lane-change flag, mesh
position and gear.  The source does NOT touch isBraking or brakeTimer, and
the gear/position branch is always taken because the constructor always
creates a mesh. -/
def playerReset (s : PlayerState) : PlayerState :=
  { s with currentLaneIndex := START_LANE_INDEX, lastShiftTime := 0,
           isChangingLanes := false,
           posX := lanePositions START_LANE_INDEX, posZ := INITIAL_PLAYER_Z,
           currentGear := 1 }

/-- A concrete reachable player state used to witness the braking
theorems: gear 3, held braking just engaged. -/
def witnessBrakingState : PlayerState :=
  { initialPlayer with currentGear := 3, isBraking := true }

/-- The discrete intents the Game forwards to the player (Game._handleInputAction)
plus the per-frame update and session reset. -/
inductive PlayerOp where
  | update (delta : ℚ) (targetLaneIndex : Fin 4)
  | gearUp (now : ℤ)
  | gearDown (now : ℤ)
  | brakeStart
  | brakeEnd
  | reset

def applyOp (s : PlayerState) (op : PlayerOp) : PlayerState :=
  match op with
  | .update delta tl => playerUpdate delta tl s
  | .gearUp now => shiftGearUp now s
  | .gearDown now => shiftGearDown now s
  | .brakeStart => startBraking s
  | .brakeEnd => stopBraking s
  | .reset => playerReset s

def runPlayer (ops : List PlayerOp) : PlayerState :=
  ops.foldl applyOp initialPlayer

/-! ## Obstacles (src/game/obstacles/BaseObstacle.js and subclasses) -/

/-- OBSTACLE_TYPES. -/
inductive OType where
  | static
  | slowCar
  | oncomingCar
  deriving DecidableEq

/-- Whether an obstacle mesh came from a cached model or from the factory's
placeholder box geometry. -/
inductive MeshKind where
  | assetMesh
  | fallbackBox
  deriving DecidableEq

/-- A BaseObstacle (or subclass) instance.  The mesh is always present, so
its position is embedded directly; the bounding box is derived from the
mesh every frame and carries no independent state. -/
structure Obstacle where
  otype : OType
  isActive : Bool
  visible : Bool
  x : ℚ
  y : ℚ
  z : ℚ
  meshKind : MeshKind
  deriving DecidableEq

/-- BaseObstacle.updatePosition and its overrides: Static and SameDirection
use the base rule (move with the scroll), Oncoming adds its fixed base
closing speed to the player's scroll speed.  Speeds are stored per frame at
60 fps; the factor 60 converts to per-second motion. -/
def updatePosition (delta scrollSpeed : ℚ) (o : Obstacle) : Obstacle :=
  if o.isActive then
    match o.otype with
    | .oncomingCar => { o with z := o.z + (ONCOMING_CAR_FIXED_SPEED + scrollSpeed) * 60 * delta }
    | _ => { o with z := o.z + scrollSpeed * 60 * delta }
  else o

/-- BaseObstacle.spawn(x, y, z). -/
def spawn (x y z : ℚ) (o : Obstacle) : Obstacle :=
  { o with x := x, y := y, z := z, visible := true, isActive := true }

/-- BaseObstacle.despawn(). -/
def despawn (o : Obstacle) : Obstacle :=
  { o with visible := false, isActive := false }

/-- BaseObstacle.shouldRecycle(cameraPositionZ). -/
def shouldRecycle (cameraPositionZ : ℚ) (o : Obstacle) : Bool :=
  o.isActive &&
    (decide (cameraPositionZ + ROAD_SEGMENT_LENGTH * (3/2) < o.z) ||
     decide (o.z < cameraPositionZ - NUM_ROAD_SEGMENTS * ROAD_SEGMENT_LENGTH))

/-! ## Obstacle factory (src/game/obstacles/ObstacleFactory.js) -/

/-- Outcome of selecting a model config and looking its URL up in the asset
cache while constructing a brand-new obstacle:
* `hit`      — a model config was selected and AssetManager.getAsset returned
               the cached scene;
* `noConfig` — no model config / URL was available (empty model table), so
               the factory goes straight to its fallback mesh;
* `missing`  — a URL was selected but the asset is absent from the cache, in
               which case AssetManager.getAsset THROWS
               (src/assets/AssetManager.js line 136). -/
inductive LookupResult where
  | hit
  | noConfig
  | missing
  deriving DecidableEq

/-- The factory's type-keyed inactive pools.  JS arrays use push/pop at the
tail; the lists here store the most recently released instance first, so
push becomes cons and pop takes the head. -/
structure FactoryState where
  staticPool : List Obstacle
  slowCarPool : List Obstacle
  oncomingPool : List Obstacle
  deriving DecidableEq

def emptyFactory : FactoryState :=
  { staticPool := [], slowCarPool := [], oncomingPool := [] }

def poolOf (fs : FactoryState) : OType → List Obstacle
  | .static => fs.staticPool
  | .slowCar => fs.slowCarPool
  | .oncomingCar => fs.oncomingPool

def setPool (fs : FactoryState) (t : OType) (l : List Obstacle) : FactoryState :=
  match t with
  | .static => { fs with staticPool := l }
  | .slowCar => { fs with slowCarPool := l }
  | .oncomingCar => { fs with oncomingPool := l }

/-- A freshly constructed obstacle as produced by the BaseObstacle
constructor: inactive until spawned, mesh visible, position still at the
cloned model's origin. -/
def newObstacle (t : OType) (mk : MeshKind) : Obstacle :=
  { otype := t, isActive := false, visible := true, x := 0, y := 0, z := 0, meshKind := mk }

/-- ObstacleFactory.createObstacle(type): reuse the most recently pooled
instance if one exists; otherwise construct a new one.  On a fresh
construction the mesh comes from the asset cache on a hit, from the
placeholder geometry when no model config exists, and on a cache miss the
exception thrown by AssetManager.getAsset is caught and null is returned
(the catch block at ObstacleFactory.js lines 157-163).  The unknown-type
branch is unreachable because OType is the full enum. -/
def createObstacle (fs : FactoryState) (t : OType) (lookup : OType → LookupResult) :
    Option Obstacle × FactoryState :=
  match poolOf fs t with
  | o :: rest => (some o, setPool fs t rest)
  | [] =>
    match lookup t with
    | .hit => (some (newObstacle t .assetMesh), fs)
    | .noConfig => (some (newObstacle t .fallbackBox), fs)
    | .missing => (none, fs)

/-- ObstacleFactory.releaseObstacle(obstacle): despawn and push onto the
owning pool.  The no-pool branch is unreachable with the full type enum. -/
def releaseObstacle (fs : FactoryState) (o : Obstacle) : FactoryState :=
  setPool fs o.otype (despawn o :: poolOf fs o.otype)

/-- A concrete active oncoming obstacle used to witness the closing-speed
theorem. -/
def witnessOncoming : Obstacle :=
  { otype := OType.oncomingCar, isActive := true, visible := true,
    x := -(5/8), y := 0, z := -30, meshKind := MeshKind.assetMesh }

/-! ## Shared spawn-engine helpers (identical in both spawn engines) -/

/-- _getLaneIndexFromPosition(x): index of the lane center closest to x.
The JS loop starts from (-1, Infinity) and updates on strictly smaller
distance, so after the first iteration the state is (0, |x - p0|) and ties
keep the earlier index. -/
def laneIndexFromPosition (x : ℚ) : Fin 4 :=
  (([1, 2, 3] : List (Fin 4)).foldl
    (fun best cand =>
      if |x - lanePositions cand| < best.2 then (cand, |x - lanePositions cand|) else best)
    ((0 : Fin 4), |x - lanePositions 0|)).1

/-- _getWeightedRandomObstacleType(): cumulative scan over
OBSTACLE_SPAWN_WEIGHTS in insertion order (static 0.4, slow_car 0.3,
oncoming_car 0.3) against one random draw r ∈ [0,1), with the static
fallback the loop falls through to when r exceeds the total weight. -/
def weightedType (r : ℚ) : OType :=
  if r ≤ 2/5 then .static
  else if r ≤ 7/10 then .slowCar
  else if r ≤ 1 then .oncomingCar
  else .static

/-! ## Legacy fixed-wave spawn engine (src/modules/obstacles.js, _spawnObstacle) -/

/-- The random draws consumed by one iteration of the legacy wave loop:
the weighted type draw, the shoulder-lane draw (used by statics only) and
the Z-jitter draw. -/
structure WaveDraw where
  rType : ℚ
  rLane : ℚ
  rZ : ℚ
  deriving DecidableEq

/-- Lane-relevant data of an already active obstacle (mesh position),
as read by the legacy validation loop. -/
structure ActivePos where
  x : ℚ
  z : ℚ
  deriving DecidableEq

/-- An entry of obstaclesToSpawnInfo. -/
structure SpawnInfo where
  itype : OType
  lane : Fin 4
  speed : ℚ
  posZ : ℚ
  geometryIsCar : Bool
  deriving DecidableEq

/-- One candidate of the legacy wave: type from the weighted draw, lane and
speed by type, Z jittered around the base spawn Z except for oncoming cars,
whose Z is overridden to -NUM_ROAD_SEGMENTS * ROAD_SEGMENT_LENGTH * 0.6. -/
def legacyCandidate (baseSpawnPosZ : ℚ) (d : WaveDraw) : SpawnInfo :=
  let z0 := baseSpawnPosZ + (d.rZ - 1/2) * ROAD_SEGMENT_LENGTH
  match weightedType d.rType with
  | .static =>
      { itype := .static, lane := if d.rLane < 1/2 then 0 else 3,
        speed := 0, posZ := z0, geometryIsCar := false }
  | .slowCar =>
      { itype := .slowCar, lane := 2,
        speed := SCROLL_SPEED * SLOW_CAR_SPEED_FACTOR, posZ := z0, geometryIsCar := true }
  | .oncomingCar =>
      { itype := .oncomingCar, lane := 1,
        speed := ONCOMING_CAR_FIXED_SPEED,
        posZ := -(NUM_ROAD_SEGMENTS * ROAD_SEGMENT_LENGTH * (3/5)), geometryIsCar := true }

/-- Legacy validation check 2: too close to an ACTIVE obstacle in an
adjacent lane. -/
def tooCloseToActiveAdj (activeObstacles : List ActivePos) (c : SpawnInfo) : Bool :=
  activeObstacles.any (fun a =>
    (((laneIndexFromPosition a.x : ℤ) - (c.lane : ℤ)).natAbs == 1) &&
      decide (|a.z - c.posZ| < MIN_ADJACENT_SPAWN_DISTANCE_Z))

/-- One iteration of the legacy wave loop: draw a candidate, skip it if its
lane is already claimed by this wave or it sits too close to an active
obstacle in an adjacent lane, otherwise append it and claim its lane. -/
def waveStep (activeObstacles : List ActivePos) (baseSpawnPosZ : ℚ)
    (st : List SpawnInfo × (Fin 4 → Bool)) (d : WaveDraw) :
    List SpawnInfo × (Fin 4 → Bool) :=
  let c := legacyCandidate baseSpawnPosZ d
  if st.2 c.lane then st
  else if tooCloseToActiveAdj activeObstacles c then st
  else (st.1 ++ [c], Function.update st.2 c.lane true)

/-- The candidate-collection loop of the legacy wave.  The shipped code
runs it with exactly maxObstaclesThisWave = 3 draws; the draw list length
is kept as the loop bound so the post-hoc all-lanes check below can also be
exercised. -/
def buildWave (activeObstacles : List ActivePos) (baseSpawnPosZ : ℚ)
    (draws : List WaveDraw) : List SpawnInfo × (Fin 4 → Bool) :=
  draws.foldl (waveStep activeObstacles baseSpawnPosZ) ([], fun _ => false)

/-- potentialLaneOccupancy.includes(false). -/
def clearLaneExists (occ : Fin 4 → Bool) : Bool :=
  (List.finRange 4).any (fun l => !occ l)

/-- The post-hoc guard of the legacy wave (obstacles.js lines 182-187):
if no clear lane would remain and the wave is nonempty, pop the last-added
candidate and clear its lane before anything is committed. -/
def dropPhase (st : List SpawnInfo × (Fin 4 → Bool)) : List SpawnInfo × (Fin 4 → Bool) :=
  if clearLaneExists st.2 then st
  else
    match st.1.getLast? with
    | none => st
    | some removedInfo => (st.1.dropLast, Function.update st.2 removedInfo.lane false)

/-- The candidates a legacy wave actually commits (obstacles.js line 189:
commit only when a clear lane exists and the list is nonempty; mesh
creation is assumed to succeed and pool slots to be available, which only
filters individual commits, never changes which lanes the wave claims). -/
def legacyWave (activeObstacles : List ActivePos) (baseSpawnPosZ : ℚ)
    (draws : List WaveDraw) : List SpawnInfo :=
  let st := dropPhase (buildWave activeObstacles baseSpawnPosZ draws)
  if clearLaneExists st.2 && !st.1.isEmpty then st.1 else []

/-! ## Density-gated spawn engine (src/game/obstacles/ObstacleManager.js) -/

def DENSITY_CHECK_INTERVAL : ℚ := 1/4

def ACTIVE_ZONE_DEPTH : ℚ := 100

/-- Modelled from the spec: the configured spawn distance ahead of the
player (`OBSTACLE_SPAWN_DISTANCE_PLAYER`); the constants.js revision
holding its value is missing from the snapshot.  40 world units places
spawns inside the density zone (which starts 27.5 units ahead of the
player) and ahead of the recycle window, as the density-control design
in the spec requires. -/
def OBSTACLE_SPAWN_DISTANCE_PLAYER : ℚ := 40

/-- Modelled from the spec: the small random Z jitter applied to the spawn
distance (`OBSTACLE_SPAWN_Z_RANDOMNESS`); value missing from the
snapshot. -/
def OBSTACLE_SPAWN_Z_RANDOMNESS : ℚ := 5

/-- Modelled from the spec: the minimum Z spacing between static obstacles
on opposite shoulders (`MIN_OPPOSITE_SHOULDER_SPACING`); value missing
from the snapshot.  Taken at the spacing scale the spec itself uses
(about three obstacle lengths). -/
def MIN_OPPOSITE_SHOULDER_SPACING : ℚ := CAR_LENGTH * 3

/-- The enhanced per-candidate validation of ObstacleManager._spawnObstacle:
reject when too close to an active obstacle in the same lane, in an
adjacent lane, or (for statics) on the opposite shoulder. -/
def canSpawnMgr (activeObstacles : List Obstacle) (spawnType : OType) (spawnLaneIndex : Fin 4)
    (obstaclePosZ : ℚ) : Bool :=
  activeObstacles.all (fun a =>
    let activeLaneIndex := laneIndexFromPosition a.x
    let zDistance := |a.z - obstaclePosZ|
    !((activeLaneIndex == spawnLaneIndex) && decide (zDistance < CAR_LENGTH * 3)) &&
    !((((activeLaneIndex : ℤ) - (spawnLaneIndex : ℤ)).natAbs == 1) &&
        decide (zDistance < MIN_ADJACENT_SPAWN_DISTANCE_Z)) &&
    !((spawnType == .static) && (a.otype == .static) &&
        ((spawnLaneIndex == 0 && activeLaneIndex == 3) ||
         (spawnLaneIndex == 3 && activeLaneIndex == 0)) &&
        decide (zDistance < MIN_OPPOSITE_SHOULDER_SPACING)))

/-- The state owned by the ObstacleManager: the pool of currently active
obstacles, the density-check throttle timer, and the factory it delegates
creation to. -/
structure MgrState where
  pool : List Obstacle
  densityCheckTimer : ℚ
  factory : FactoryState
  deriving DecidableEq

def mgrInit : MgrState :=
  { pool := [], densityCheckTimer := 0, factory := emptyFactory }

/-- One attempt of the manager's spawn loop, consuming one pair of random
draws (type draw, shoulder-lane draw).  Validation runs against the
obstacles active at that moment, including ones committed earlier in the
same cycle. -/
def mgrAttempt (lookup : OType → LookupResult) (obstaclePosZ : ℚ)
    (st : List Obstacle × FactoryState) (d : ℚ × ℚ) : List Obstacle × FactoryState :=
  let spawnType := weightedType d.1
  let spawnLaneIndex : Fin 4 :=
    match spawnType with
    | .static => if d.2 < 1/2 then 0 else 3
    | .slowCar => 2
    | .oncomingCar => 1
  let activeObstacles := st.1.filter (fun o => o.isActive)
  if canSpawnMgr activeObstacles spawnType spawnLaneIndex obstaclePosZ then
    match createObstacle st.2 spawnType lookup with
    | (some newObs, fs') =>
        (st.1 ++ [spawn (lanePositions spawnLaneIndex) 0 obstaclePosZ newObs], fs')
    | (none, fs') => (st.1, fs')
  else st

/-- ObstacleManager._spawnObstacle: one spawn cycle of up to
maxObstaclesToAttempt = 2 attempts, all sharing one jittered target Z
relative to the player. -/
def mgrSpawnObstacle (playerZ rz : ℚ) (draws : List (ℚ × ℚ)) (lookup : OType → LookupResult)
    (pool : List Obstacle) (fs : FactoryState) : List Obstacle × FactoryState :=
  let baseSpawnPosZ := playerZ - OBSTACLE_SPAWN_DISTANCE_PLAYER
  let randomOffset := (rz - 1/2) * 2 * OBSTACLE_SPAWN_Z_RANDOMNESS
  let targetSpawnPosZ := baseSpawnPosZ + randomOffset
  (draws.take 2).foldl (mgrAttempt lookup targetSpawnPosZ) (pool, fs)

/-- Whether an obstacle's Z lies inside the density look-ahead zone for a
player at playerZ (ObstacleManager.update density block). -/
def inDensityZone (playerZ : ℚ) (o : Obstacle) : Bool :=
  let zoneStartZ := playerZ - ORTHO_CAMERA_VIEW_HEIGHT * (11/10)
  let zoneEndZ := zoneStartZ - ACTIVE_ZONE_DEPTH
  decide (o.z < zoneStartZ) && decide (zoneEndZ < o.z)

/-- ObstacleManager.update(delta, cameraPositionZ, player, currentScrollSpeed):
advance the throttle timer, move and recycle active obstacles, then — if the
density check fires and the zone is under the tier's target density — run one
spawn cycle.  The trailing collision scan mutates no manager state and is
omitted here. -/
def mgrUpdate (delta cameraPositionZ playerZ currentScrollSpeed : ℚ)
    (params : DifficultyParams) (rz : ℚ) (draws : List (ℚ × ℚ))
    (lookup : OType → LookupResult) (st : MgrState) : MgrState :=
  let timer := st.densityCheckTimer + delta
  let moved := st.pool.map (updatePosition delta currentScrollSpeed)
  let kept := moved.filter (fun o => !shouldRecycle cameraPositionZ o)
  let released := moved.filter (fun o => shouldRecycle cameraPositionZ o)
  let fs := released.foldl releaseObstacle st.factory
  if DENSITY_CHECK_INTERVAL ≤ timer then
    let currentObstacleCount := kept.countP (fun o => inDensityZone playerZ o)
    let targetObstacleCount := params.targetDensity * (ACTIVE_ZONE_DEPTH / 100)
    if (currentObstacleCount : ℚ) < targetObstacleCount then
      let (pool', fs') := mgrSpawnObstacle playerZ rz draws lookup kept fs
      { pool := pool', densityCheckTimer := 0, factory := fs' }
    else { pool := kept, densityCheckTimer := 0, factory := fs }
  else { pool := kept, densityCheckTimer := timer, factory := fs }

/-- The clear-lane condition of the spec: at least one of the 4 lanes has no
active obstacle inside the look-ahead zone. -/
def laneClearExistsInZone (playerZ : ℚ) (pool : List Obstacle) : Bool :=
  (List.finRange 4).any (fun l =>
    pool.all (fun o =>
      !(o.isActive && (laneIndexFromPosition o.x == l) && inDensityZone playerZ o)))

/-! ## Concrete traces used by witnesses and counterexamples -/

/-- Four wave draws that produce validated candidates in lanes 0, 3, 2
and 1 against an empty active set: two statics (one per shoulder), a
same-direction car and an oncoming car. -/
def allLanesDraws : List WaveDraw :=
  [{ rType := 1/5, rLane := 3/10, rZ := 1/2 },
   { rType := 1/5, rLane := 7/10, rZ := 1/2 },
   { rType := 1/2, rLane := 0, rZ := 1/2 },
   { rType := 4/5, rLane := 0, rZ := 0 }]

/-- Every requested model URL is present in the asset cache. -/
def allHitLookup : OType → LookupResult := fun _ => .hit

/-- First density-gated cycle of the counterexample run: from a fresh
manager, one 0.25 s frame at gear-1 scroll speed and Insane-tier
parameters (reached at score 5000); draws put a static on the left
shoulder and a same-direction car in lane 2, both at Z = -40. -/
def cxCycle1 : MgrState :=
  mgrUpdate (1/4) 0 0 (1/20) tierInsane (1/2) [(1/5, 3/10), (1/2, 1/2)] allHitLookup mgrInit

/-- Second cycle: the two obstacles drift to Z = -39.25; the draws put an
oncoming car in lane 1 and a static on the right shoulder at Z = -44.5,
both passing every spacing validation. -/
def cxCycle2 : MgrState :=
  mgrUpdate (1/4) 0 0 (1/20) tierInsane (1/20) [(4/5, 0), (1/5, 7/10)] allHitLookup cxCycle1

/-! ## Supporting lemmas: player state machine -/

/-- The lane-change half of Player.update touches neither the gear nor the
braking fields nor the cooldown timestamp. -/
lemma laneChangePart_preserves (delta : ℚ) (tl : Fin 4) (s : PlayerState) :
    (laneChangePart delta tl s).currentGear = s.currentGear ∧
    (laneChangePart delta tl s).isBraking = s.isBraking ∧
    (laneChangePart delta tl s).brakeTimer = s.brakeTimer ∧
    (laneChangePart delta tl s).lastShiftTime = s.lastShiftTime := by
  unfold laneChangePart
  dsimp only
  split_ifs <;> simp

/-- Every player operation preserves the gear floor. -/
lemma applyOp_gear_floor (s : PlayerState) (op : PlayerOp)
    (h : 1 ≤ s.currentGear) : 1 ≤ (applyOp s op).currentGear := by
  cases op with
  | update delta tl =>
    have hpres := (laneChangePart_preserves delta tl s).1
    simp only [applyOp, playerUpdate, brakingPart]
    split_ifs with h1 h2 h3 <;> simp_all [stopBraking]
    omega
  | gearUp now =>
    simp only [applyOp, shiftGearUp, stopBraking]
    split_ifs <;> simp_all
  | gearDown now =>
    simp only [applyOp, shiftGearDown]
    split_ifs <;> simp_all
  | brakeStart =>
    simp only [applyOp, startBraking]
    split_ifs <;> simp_all
  | brakeEnd =>
    simp only [applyOp, stopBraking]
    split_ifs <;> simp_all
  | reset =>
    simp [applyOp, playerReset]

/-! ## C3: the gear floor invariant -/

/-- C3.  For every sequence of intents, frame updates and resets applied to
the freshly constructed player, currentGear never goes below 1 (in
particular arbitrarily many gearDown intents at gear 1 and held braking
leave it at least 1). -/
theorem gear_never_below_one (ops : List PlayerOp) : 1 ≤ (runPlayer ops).currentGear := by
  suffices h : ∀ (l : List PlayerOp) (s : PlayerState), 1 ≤ s.currentGear →
      1 ≤ (l.foldl applyOp s).currentGear by
    exact h ops initialPlayer (by norm_num [initialPlayer])
  intro l
  induction l with
  | nil => intro s hs; simpa using hs
  | cons op rest ih =>
    intro s hs
    exact ih (applyOp s op) (applyOp_gear_floor s op hs)

/-! ## C4: held braking semantics -/

/-- Behaviour of the braking block for a state that is braking in a gear
above 1: one gear is dropped exactly when the accumulated timer reaches the
fixed interval, the held state auto-clears on reaching gear 1, and below
the interval only the timer accumulates. -/
lemma brakingPart_spec (delta : ℚ) (s : PlayerState)
    (hb : s.isBraking = true) (hg : 1 < s.currentGear) :
    (BRAKE_GEAR_REDUCTION_INTERVAL ≤ s.brakeTimer + delta →
       (brakingPart delta s).currentGear = s.currentGear - 1 ∧
       (brakingPart delta s).brakeTimer = 0 ∧
       (brakingPart delta s).isBraking = decide (1 < s.currentGear - 1)) ∧
    (s.brakeTimer + delta < BRAKE_GEAR_REDUCTION_INTERVAL →
       (brakingPart delta s).currentGear = s.currentGear ∧
       (brakingPart delta s).isBraking = true ∧
       (brakingPart delta s).brakeTimer = s.brakeTimer + delta) := by
  unfold brakingPart
  dsimp only
  rw [if_pos (And.intro hb hg)]
  constructor
  · intro hint
    rw [if_pos hint]
    by_cases hone : s.currentGear - 1 = 1
    · rw [if_pos hone]
      simp [stopBraking, hone, hb]
    · rw [if_neg hone]
      simp [hb]
      omega
  · intro hint
    rw [if_neg (not_le.mpr hint)]
    simp [hb]

/-- C4.  While held braking is active in a gear above 1: once the fixed
interval of accumulated frame time elapses the gear drops by exactly one
and the timer restarts, with the held state auto-clearing exactly when gear
1 is reached; below the interval nothing changes except the accumulated
timer; and stopBraking (the brakeEnd intent) clears the held state
immediately, regardless of elapsed interval. -/
theorem braking_held_state (s : PlayerState) (delta : ℚ) (tl : Fin 4)
    (hb : s.isBraking = true) (hg : 1 < s.currentGear) :
    (BRAKE_GEAR_REDUCTION_INTERVAL ≤ s.brakeTimer + delta →
       (playerUpdate delta tl s).currentGear = s.currentGear - 1 ∧
       (playerUpdate delta tl s).brakeTimer = 0 ∧
       (playerUpdate delta tl s).isBraking = decide (1 < s.currentGear - 1)) ∧
    (s.brakeTimer + delta < BRAKE_GEAR_REDUCTION_INTERVAL →
       (playerUpdate delta tl s).currentGear = s.currentGear ∧
       (playerUpdate delta tl s).isBraking = true ∧
       (playerUpdate delta tl s).brakeTimer = s.brakeTimer + delta) ∧
    ((stopBraking s).isBraking = false ∧ (stopBraking s).brakeTimer = 0) := by
  obtain ⟨hpg, hpb, hpt, -⟩ := laneChangePart_preserves delta tl s
  obtain ⟨h1, h2⟩ := brakingPart_spec delta (laneChangePart delta tl s)
    (hpb.trans hb) (hpg ▸ hg)
  rw [hpg, hpt] at h1 h2
  exact ⟨h1, h2, by simp [stopBraking, hb]⟩

/-- Witness for C4 at a concrete state: gear 3, braking, timer 0, a frame
of exactly the brake interval. -/
theorem braking_held_state_witness :
    ((witnessBrakingState.isBraking = true) ∧ (1 < witnessBrakingState.currentGear) ∧
     (BRAKE_GEAR_REDUCTION_INTERVAL ≤ witnessBrakingState.brakeTimer + 1)) ∧
    ((playerUpdate 1 2 witnessBrakingState).currentGear = witnessBrakingState.currentGear - 1 ∧
     (playerUpdate 1 2 witnessBrakingState).brakeTimer = 0 ∧
     (playerUpdate 1 2 witnessBrakingState).isBraking
       = decide (1 < witnessBrakingState.currentGear - 1)) := by
  refine ⟨⟨rfl, by norm_num [witnessBrakingState],
    by norm_num [witnessBrakingState, initialPlayer, BRAKE_GEAR_REDUCTION_INTERVAL]⟩, ?_⟩
  exact (braking_held_state witnessBrakingState 1 2 rfl
    (by norm_num [witnessBrakingState])).1
    (by norm_num [witnessBrakingState, initialPlayer, BRAKE_GEAR_REDUCTION_INTERVAL])

/-! ## C10: gearUp cancels held braking before the cooldown gate -/

/-- C10.  shiftGearUp stops braking before the cooldown is consulted: from
any state with held braking active, the result has isBraking cleared and
the brake timer reset, and when the cooldown blocks the shift the gear is
left unchanged (the braking cancellation still happened). -/
theorem gearUp_cancels_braking (s : PlayerState) (now : ℤ)
    (hb : s.isBraking = true) :
    (shiftGearUp now s).isBraking = false ∧
    (shiftGearUp now s).brakeTimer = 0 ∧
    (now - s.lastShiftTime < GEAR_SHIFT_COOLDOWN →
      (shiftGearUp now s).currentGear = s.currentGear ∧
      (shiftGearUp now s).lastShiftTime = s.lastShiftTime) := by
  unfold shiftGearUp stopBraking
  rw [if_pos hb]
  dsimp only
  split_ifs with hcool <;> simp_all

/-- Witness for C10: braking at gear 3, a gearUp intent arriving 100 ms
after the previous shift (inside the 200 ms cooldown) still cancels
braking, while the gear stays 3. -/
theorem gearUp_cancels_braking_witness :
    (witnessBrakingState.isBraking = true ∧
     ((100 : ℤ) - witnessBrakingState.lastShiftTime < GEAR_SHIFT_COOLDOWN)) ∧
    ((shiftGearUp 100 witnessBrakingState).isBraking = false ∧
     (shiftGearUp 100 witnessBrakingState).brakeTimer = 0 ∧
     (shiftGearUp 100 witnessBrakingState).currentGear = witnessBrakingState.currentGear) := by
  have h := gearUp_cancels_braking witnessBrakingState 100 rfl
  have hcool : (100 : ℤ) - witnessBrakingState.lastShiftTime < GEAR_SHIFT_COOLDOWN := by
    norm_num [witnessBrakingState, initialPlayer, GEAR_SHIFT_COOLDOWN]
  exact ⟨⟨rfl, hcool⟩, h.1, h.2.1, (h.2.2 hcool).1⟩

/-! ## C5: reset does not clear the held braking flag -/

/-- C5 counterexample.  A reachable state: fresh player, gearUp at t = 1000
(cooldown satisfied), brakeStart, then reset().  The claim asserts
isBraking = false after reset; the code leaves it true because reset()
never touches isBraking. -/
theorem reset_keeps_braking_counterexample :
    (playerReset (startBraking (shiftGearUp 1000 initialPlayer))).isBraking = true := by
  decide

/-- C5 as amended.  reset() restores the start lane, gear 1, lane-change
flag false and the start position, but leaves isBraking (and the brake
timer) exactly as they were. -/
theorem reset_restores_lane_gear_laneflag (s : PlayerState) :
    (playerReset s).currentLaneIndex = START_LANE_INDEX ∧
    (playerReset s).currentGear = 1 ∧
    (playerReset s).isChangingLanes = false ∧
    (playerReset s).posX = lanePositions START_LANE_INDEX ∧
    (playerReset s).lastShiftTime = 0 ∧
    (playerReset s).isBraking = s.isBraking ∧
    (playerReset s).brakeTimer = s.brakeTimer := by
  simp [playerReset]

/-! ## C6: difficulty tier lookup -/

/-- Closed form of getParamsForScore: the reverse scan picks the highest
tier whose threshold the score has reached, defaulting to Easy. -/
lemma getParamsForScore_eval (s : ℚ) :
    getParamsForScore s =
      if 5000 ≤ s then tierInsane
      else if 3000 ≤ s then tierVeryHard
      else if 1500 ≤ s then tierHard
      else if 500 ≤ s then tierMedium
      else tierEasy := by
  have hrev : DIFFICULTY_LEVELS.reverse
      = [tierInsane, tierVeryHard, tierHard, tierMedium, tierEasy] := rfl
  unfold getParamsForScore
  rw [hrev]
  by_cases h5 : (5000 : ℚ) ≤ s
  · simp [List.find?, tierInsane, h5]
  · by_cases h3 : (3000 : ℚ) ≤ s
    · simp [List.find?, tierInsane, tierVeryHard, h5, h3]
    · by_cases h15 : (1500 : ℚ) ≤ s
      · simp [List.find?, tierInsane, tierVeryHard, tierHard, h5, h3, h15]
      · by_cases h05 : (500 : ℚ) ≤ s
        · simp [List.find?, tierInsane, tierVeryHard, tierHard, tierMedium, h5, h3, h15, h05]
        · simp only [List.find?, tierInsane, tierVeryHard, tierHard, tierMedium, tierEasy,
            h5, h3, h15, h05, decide_eq_true_eq]
          rcases Decidable.em ((0 : ℚ) ≤ s) with h0 | h0 <;> simp [h0]

lemma getParamsForScore_threshold_le (s : ℚ) (h0 : 0 ≤ s) :
    (getParamsForScore s).threshold ≤ s := by
  rw [getParamsForScore_eval]
  split_ifs with h5 h3 h15 h05 <;>
    simp [tierInsane, tierVeryHard, tierHard, tierMedium, tierEasy] <;> linarith

lemma getParamsForScore_mem (s : ℚ) : getParamsForScore s ∈ DIFFICULTY_LEVELS := by
  rw [getParamsForScore_eval]
  split_ifs <;> simp [DIFFICULTY_LEVELS]

lemma getParamsForScore_highest (s : ℚ) :
    ∀ t ∈ DIFFICULTY_LEVELS, t.threshold ≤ s →
      t.threshold ≤ (getParamsForScore s).threshold := by
  intro t ht hts
  rw [getParamsForScore_eval]
  fin_cases ht <;>
    split_ifs <;>
    simp_all [tierInsane, tierVeryHard, tierHard, tierMedium, tierEasy] <;> linarith

lemma getParamsForScore_level_mono (s1 s2 : ℚ) (h : s1 ≤ s2) :
    (getParamsForScore s1).level ≤ (getParamsForScore s2).level := by
  rw [getParamsForScore_eval, getParamsForScore_eval]
  split_ifs <;>
    simp_all [tierInsane, tierVeryHard, tierHard, tierMedium, tierEasy] <;> linarith

/-- C6.  The tier lookup returns a configured tier whose threshold is the
highest threshold not exceeding the score, and the selected level is
monotone non-decreasing in the score. -/
theorem tier_lookup_highest_and_monotone (s1 s2 : ℚ) (h0 : 0 ≤ s1) (h12 : s1 ≤ s2) :
    (getParamsForScore s1).threshold ≤ s1 ∧
    getParamsForScore s1 ∈ DIFFICULTY_LEVELS ∧
    (∀ t ∈ DIFFICULTY_LEVELS, t.threshold ≤ s1 →
       t.threshold ≤ (getParamsForScore s1).threshold) ∧
    (getParamsForScore s1).level ≤ (getParamsForScore s2).level :=
  ⟨getParamsForScore_threshold_le s1 h0, getParamsForScore_mem s1,
   getParamsForScore_highest s1, getParamsForScore_level_mono s1 s2 h12⟩

/-- Witness for C6 at scores 600 and 1600: Medium (level 2) at 600,
Hard (level 3) at 1600. -/
theorem tier_lookup_witness :
    ((0 : ℚ) ≤ 600 ∧ (600 : ℚ) ≤ 1600) ∧
    ((getParamsForScore 600).threshold ≤ 600 ∧
     getParamsForScore 600 ∈ DIFFICULTY_LEVELS ∧
     (∀ t ∈ DIFFICULTY_LEVELS, t.threshold ≤ 600 →
        t.threshold ≤ (getParamsForScore 600).threshold) ∧
     (getParamsForScore 600).level ≤ (getParamsForScore 1600).level) :=
  ⟨⟨by norm_num, by norm_num⟩,
   tier_lookup_highest_and_monotone 600 1600 (by norm_num) (by norm_num)⟩

/-! ## C7: oncoming closing speed -/

/-- C7.  An active Oncoming obstacle advances toward the player by exactly
(base closing speed + player scroll speed) per frame unit; with speeds
expressed per second (the stored per-frame constants times 60), the
displacement over delta seconds is exactly
(baseClosingSpeed + v) * delta, additive in the player's speed and
independent of the tier's scroll scaling, which never enters the
formula.  The lane (X) position is untouched. -/
theorem oncoming_closing_speed (o : Obstacle) (delta scrollSpeed : ℚ)
    (ht : o.otype = .oncomingCar) (ha : o.isActive = true) :
    (updatePosition delta scrollSpeed o).z - o.z
      = (ONCOMING_CAR_FIXED_SPEED * 60 + scrollSpeed * 60) * delta ∧
    (updatePosition delta scrollSpeed o).z - o.z
      = (ONCOMING_CAR_FIXED_SPEED + scrollSpeed) * 60 * delta ∧
    (updatePosition delta scrollSpeed o).x = o.x := by
  obtain ⟨t, act, vis, x, y, z, mk⟩ := o
  obtain rfl : t = .oncomingCar := ht
  obtain rfl : act = true := ha
  refine ⟨?_, ?_, rfl⟩
  · show z + (ONCOMING_CAR_FIXED_SPEED + scrollSpeed) * 60 * delta - z
      = (ONCOMING_CAR_FIXED_SPEED * 60 + scrollSpeed * 60) * delta
    ring
  · show z + (ONCOMING_CAR_FIXED_SPEED + scrollSpeed) * 60 * delta - z
      = (ONCOMING_CAR_FIXED_SPEED + scrollSpeed) * 60 * delta
    ring

/-- Witness for C7: an active oncoming obstacle at z = -30, player scroll
speed 1/20, over a 1/2-second step. -/
theorem oncoming_closing_speed_witness :
    (witnessOncoming.otype = OType.oncomingCar ∧ witnessOncoming.isActive = true) ∧
    ((updatePosition (1/2) (1/20) witnessOncoming).z - witnessOncoming.z
       = (ONCOMING_CAR_FIXED_SPEED + 1/20) * 60 * (1/2) ∧
     (updatePosition (1/2) (1/20) witnessOncoming).x = witnessOncoming.x) := by
  have h := oncoming_closing_speed witnessOncoming (1/2) (1/20) rfl rfl
  exact ⟨⟨rfl, rfl⟩, h.2.1, h.2.2⟩

/-! ## C8: factory release / acquire round trip -/

/-- C8.  Releasing an obstacle and then requesting the same kind returns
that very pooled instance, inactive until spawn(); spawn(x, y, z) then
places it exactly at the requested coordinates and activates it, leaving
no residual active-state or position from the prior use. -/
theorem factory_release_acquire_roundtrip (fs : FactoryState) (o : Obstacle)
    (x y z : ℚ) (lookup : OType → LookupResult) :
    (createObstacle (releaseObstacle fs o) o.otype lookup).1 = some (despawn o) ∧
    (despawn o).isActive = false ∧
    (spawn x y z (despawn o)).x = x ∧
    (spawn x y z (despawn o)).y = y ∧
    (spawn x y z (despawn o)).z = z ∧
    (spawn x y z (despawn o)).isActive = true := by
  refine ⟨?_, rfl, rfl, rfl, rfl, rfl⟩
  cases h : o.otype <;>
    simp [createObstacle, releaseObstacle, poolOf, setPool, h]

/-! ## C9: asset-cache miss aborts the spawn instead of falling back -/

/-- C9 (code behaviour at the failing input).  When the selected model URL
is missing from the asset cache, AssetManager.getAsset throws, the
factory's catch block returns null, and the spawn attempt is dropped — the
placeholder fallback (which the factory does use when no model config is
available, last conjunct) is never reached on this path. -/
theorem missing_asset_aborts_spawn :
    (createObstacle emptyFactory OType.static (fun _ => .missing)).1 = none ∧
    (createObstacle emptyFactory OType.slowCar (fun _ => .missing)).1 = none ∧
    (createObstacle emptyFactory OType.oncomingCar (fun _ => .missing)).1 = none ∧
    (createObstacle emptyFactory OType.static (fun _ => .noConfig)).1
      = some (newObstacle OType.static MeshKind.fallbackBox) :=
  ⟨rfl, rfl, rfl, rfl⟩

/-! ## Supporting lemmas: the legacy wave loop -/

/-- The wave loop preserves the occupancy invariant: the lanes of the
collected candidates are pairwise distinct, and the occupancy array is
exactly the set of lanes claimed so far. -/
lemma waveLoop_invariant (active : List ActivePos) (baseZ : ℚ) :
    ∀ (draws : List WaveDraw) (st : List SpawnInfo × (Fin 4 → Bool)),
      (st.1.map SpawnInfo.lane).Nodup →
      (∀ l, st.2 l = true ↔ l ∈ st.1.map SpawnInfo.lane) →
      ((draws.foldl (waveStep active baseZ) st).1.map SpawnInfo.lane).Nodup ∧
      (∀ l, (draws.foldl (waveStep active baseZ) st).2 l = true ↔
         l ∈ (draws.foldl (waveStep active baseZ) st).1.map SpawnInfo.lane) := by
  intro draws
  induction draws with
  | nil => intro st h1 h2; exact ⟨h1, h2⟩
  | cons d rest ih =>
    intro st h1 h2
    rw [List.foldl_cons]
    have hstep :
        ((waveStep active baseZ st d).1.map SpawnInfo.lane).Nodup ∧
        (∀ l, (waveStep active baseZ st d).2 l = true ↔
           l ∈ (waveStep active baseZ st d).1.map SpawnInfo.lane) := by
      unfold waveStep
      dsimp only
      split_ifs with hocc hclose
      · exact ⟨h1, h2⟩
      · exact ⟨h1, h2⟩
      · have hnot : (legacyCandidate baseZ d).lane ∉ st.1.map SpawnInfo.lane := by
          intro hmem
          exact hocc ((h2 _).mpr hmem)
        constructor
        · rw [List.map_append]
          refine List.nodup_append.mpr ⟨h1, by simp, ?_⟩
          intro a ha hb
          simp only [List.map_cons, List.map_nil, List.mem_singleton] at hb
          exact hnot (hb ▸ ha)
        · intro l
          by_cases hl : l = (legacyCandidate baseZ d).lane
          · subst hl
            simp [Function.update_same, List.map_append]
          · simp [Function.update_noteq hl, List.map_append, h2 l, hl]
    exact ih _ hstep.1 hstep.2

/-- The candidates of a wave claim pairwise-distinct lanes, and the
occupancy array records exactly the claimed lanes. -/
lemma buildWave_props (active : List ActivePos) (baseZ : ℚ) (draws : List WaveDraw) :
    ((buildWave active baseZ draws).1.map SpawnInfo.lane).Nodup ∧
    (∀ l, (buildWave active baseZ draws).2 l = true ↔
       l ∈ (buildWave active baseZ draws).1.map SpawnInfo.lane) :=
  waveLoop_invariant active baseZ draws ([], fun _ => false) (by simp) (by simp)

/-- Structure of a wave whose candidates claim all four lanes: it has at
least four candidates, the last one's lane is claimed by no other
candidate, and the drop phase removes exactly that candidate while
clearing its lane. -/
lemma allOccupied_struct (active : List ActivePos) (baseZ : ℚ) (draws : List WaveDraw)
    (hall : ∀ l : Fin 4, (buildWave active baseZ draws).2 l = true) :
    ∃ hne : (buildWave active baseZ draws).1 ≠ [],
      4 ≤ (buildWave active baseZ draws).1.length ∧
      ((buildWave active baseZ draws).1.getLast hne).lane
        ∉ ((buildWave active baseZ draws).1.dropLast.map SpawnInfo.lane) ∧
      dropPhase (buildWave active baseZ draws)
        = ((buildWave active baseZ draws).1.dropLast,
           Function.update (buildWave active baseZ draws).2
             ((buildWave active baseZ draws).1.getLast hne).lane false) := by
  obtain ⟨hnd, hocc⟩ := buildWave_props active baseZ draws
  have hmem : ∀ l : Fin 4, l ∈ (buildWave active baseZ draws).1.map SpawnInfo.lane :=
    fun l => (hocc l).mp (hall l)
  have hlen4 : 4 ≤ ((buildWave active baseZ draws).1.map SpawnInfo.lane).length := by
    have hsub : (Finset.univ : Finset (Fin 4))
        ⊆ ((buildWave active baseZ draws).1.map SpawnInfo.lane).toFinset := by
      intro l _
      simpa using hmem l
    calc (4 : ℕ) = (Finset.univ : Finset (Fin 4)).card := by simp
      _ ≤ ((buildWave active baseZ draws).1.map SpawnInfo.lane).toFinset.card :=
          Finset.card_le_card hsub
      _ ≤ ((buildWave active baseZ draws).1.map SpawnInfo.lane).length :=
          List.toFinset_card_le _
  have hlen : 4 ≤ (buildWave active baseZ draws).1.length := by simpa using hlen4
  have hne : (buildWave active baseZ draws).1 ≠ [] := by
    intro h
    rw [h] at hlen
    simp at hlen
  refine ⟨hne, hlen, ?_, ?_⟩
  · have hdecomp : (buildWave active baseZ draws).1.dropLast
        ++ [(buildWave active baseZ draws).1.getLast hne] = (buildWave active baseZ draws).1 :=
      List.dropLast_append_getLast hne
    have hmapdecomp : (buildWave active baseZ draws).1.map SpawnInfo.lane
        = ((buildWave active baseZ draws).1.dropLast.map SpawnInfo.lane)
          ++ [((buildWave active baseZ draws).1.getLast hne).lane] := by
      conv_lhs => rw [← hdecomp]
      simp
    rw [hmapdecomp] at hnd
    intro hmem'
    exact (List.nodup_append.mp hnd).2.2 hmem' (List.mem_singleton_self _)
  · have hclear : clearLaneExists (buildWave active baseZ draws).2 = false :=
      List.any_eq_false.mpr (fun l _ => by simp [hall l])
    unfold dropPhase
    rw [hclear]
    simp [List.getLast?_eq_getLast _ hne]

/-! ## C2: the all-four-lanes drop rule of the legacy wave -/

/-- C2.  Whenever the validated candidates collected by a legacy wave
claim all 4 lanes, the commit is preceded by removing exactly one
candidate — the last-added one — and the wave then commits precisely the
remaining candidates, none of which claims the removed candidate's lane.
(The shipped wave loop draws at most 3 candidates per wave, so this
post-hoc guard is defensive there; the property is proved for the loop
with any number of draws.) -/
theorem wave_claiming_all_lanes_drops_last (active : List ActivePos) (baseZ : ℚ)
    (draws : List WaveDraw)
    (hall : ∀ l : Fin 4, (buildWave active baseZ draws).2 l = true) :
    ∃ removedInfo,
      (buildWave active baseZ draws).1.getLast? = some removedInfo ∧
      (dropPhase (buildWave active baseZ draws)).1
        = (buildWave active baseZ draws).1.dropLast ∧
      (dropPhase (buildWave active baseZ draws)).1.length + 1
        = (buildWave active baseZ draws).1.length ∧
      (dropPhase (buildWave active baseZ draws)).2 removedInfo.lane = false ∧
      removedInfo.lane ∉ ((dropPhase (buildWave active baseZ draws)).1.map SpawnInfo.lane) ∧
      legacyWave active baseZ draws = (buildWave active baseZ draws).1.dropLast := by
  obtain ⟨hne, hlen, hnotmem, hdrop⟩ := allOccupied_struct active baseZ draws hall
  refine ⟨(buildWave active baseZ draws).1.getLast hne,
    List.getLast?_eq_getLast _ hne, by rw [hdrop], ?_, ?_, ?_, ?_⟩
  · rw [hdrop]
    simp only [List.length_dropLast]
    omega
  · rw [hdrop]
    simp [Function.update_same]
  · rw [hdrop]
    exact hnotmem
  · have hclear' : clearLaneExists (dropPhase (buildWave active baseZ draws)).2 = true := by
      rw [hdrop]
      refine List.any_eq_true.mpr ⟨((buildWave active baseZ draws).1.getLast hne).lane, ?_, ?_⟩
      · simp [List.mem_finRange]
      · simp [Function.update_same]
    have hnonempty : ((dropPhase (buildWave active baseZ draws)).1.isEmpty) = false := by
      rw [hdrop]
      cases hEmpty : (buildWave active baseZ draws).1.dropLast.isEmpty
      · rfl
      · exfalso
        have h0 := List.isEmpty_iff.mp hEmpty
        have : (buildWave active baseZ draws).1.dropLast.length = 0 := by rw [h0]; rfl
        rw [List.length_dropLast] at this
        omega
    unfold legacyWave
    dsimp only
    rw [hclear', hnonempty]
    simp only [Bool.not_false, Bool.and_true, if_true]
    rw [hdrop]

/-- Witness for C2: four draws whose validated candidates claim all four
lanes; the wave pops exactly the last-added (oncoming, lane 1) candidate. -/
theorem wave_claiming_all_lanes_drops_last_witness :
    (∀ l : Fin 4, (buildWave [] (-32) allLanesDraws).2 l = true) ∧
    (∃ removedInfo,
      (buildWave [] (-32) allLanesDraws).1.getLast? = some removedInfo ∧
      (dropPhase (buildWave [] (-32) allLanesDraws)).1
        = (buildWave [] (-32) allLanesDraws).1.dropLast ∧
      (dropPhase (buildWave [] (-32) allLanesDraws)).1.length + 1
        = (buildWave [] (-32) allLanesDraws).1.length ∧
      (dropPhase (buildWave [] (-32) allLanesDraws)).2 removedInfo.lane = false ∧
      removedInfo.lane ∉ ((dropPhase (buildWave [] (-32) allLanesDraws)).1.map SpawnInfo.lane) ∧
      legacyWave [] (-32) allLanesDraws = (buildWave [] (-32) allLanesDraws).1.dropLast) :=
  ⟨by intro l; fin_cases l <;> rfl,
   wave_claiming_all_lanes_drops_last [] (-32) allLanesDraws
     (by intro l; fin_cases l <;> rfl)⟩

/-! ## C1: the clear-lane invariant -/

/-- C1 counterexample.  Two density-gated spawn cycles from a fresh
manager (Insane tier, all assets cached) put active obstacles in all four
lanes inside the look-ahead zone, so immediately after the second spawn
cycle completes no lane is clear; the cycle even committed its spawns with
every validation passing. -/
theorem spawn_cycles_fill_all_lanes_counterexample :
    laneClearExistsInZone 0 cxCycle2.pool = false ∧
    cxCycle2.pool.length = 4 ∧
    cxCycle2.pool.all (fun o => o.isActive) = true :=
  ⟨rfl, rfl, rfl⟩

/-- C1 as amended.  What the spawn engine does guarantee is per-wave: the
candidates committed by any single legacy wave leave at least one of the 4
lanes unclaimed by that wave (the occupancy array ends with a clear entry,
and no committed candidate sits in that lane).  Across waves, and in the
density-gated engine, lanes may all become occupied within the look-ahead
zone, as the counterexample shows. -/
theorem spawn_wave_leaves_unclaimed_lane (active : List ActivePos) (baseZ : ℚ)
    (draws : List WaveDraw) :
    ∃ l : Fin 4,
      (dropPhase (buildWave active baseZ draws)).2 l = false ∧
      ∀ c ∈ legacyWave active baseZ draws, c.lane ≠ l := by
  obtain ⟨hnd, hocc⟩ := buildWave_props active baseZ draws
  by_cases hclear : clearLaneExists (buildWave active baseZ draws).2 = true
  · obtain ⟨l, -, hl⟩ := List.any_eq_true.mp hclear
    have hlfalse : (buildWave active baseZ draws).2 l = false := by
      simpa using hl
    have hdropid : dropPhase (buildWave active baseZ draws) = buildWave active baseZ draws := by
      unfold dropPhase
      rw [hclear]
      simp
    refine ⟨l, by rw [hdropid]; exact hlfalse, ?_⟩
    intro c hc hlc
    have hcmem : c ∈ (buildWave active baseZ draws).1 := by
      unfold legacyWave at hc
      dsimp only at hc
      rw [hdropid] at hc
      by_cases hcond : (clearLaneExists (buildWave active baseZ draws).2
          && !(buildWave active baseZ draws).1.isEmpty) = true
      · rw [if_pos hcond] at hc
        exact hc
      · rw [if_neg hcond] at hc
        simp at hc
    have : (buildWave active baseZ draws).2 c.lane = true :=
      (hocc c.lane).mpr (List.mem_map_of_mem SpawnInfo.lane hcmem)
    rw [hlc] at this
    rw [this] at hlfalse
    exact Bool.noConfusion hlfalse
  · have hall : ∀ l : Fin 4, (buildWave active baseZ draws).2 l = true := by
      intro l
      by_contra hl
      apply hclear
      refine List.any_eq_true.mpr ⟨l, by simp [List.mem_finRange], ?_⟩
      simp only [Bool.not_eq_true] at hl
      simp [hl]
    obtain ⟨hne, hlen, hnotmem, hdrop⟩ := allOccupied_struct active baseZ draws hall
    refine ⟨((buildWave active baseZ draws).1.getLast hne).lane, ?_, ?_⟩
    · rw [hdrop]
      simp [Function.update_same]
    · intro c hc hlc
      have hcmem : c ∈ (buildWave active baseZ draws).1.dropLast := by
        unfold legacyWave at hc
        dsimp only at hc
        rw [hdrop] at hc
        by_cases hcond : (clearLaneExists (Function.update (buildWave active baseZ draws).2
            ((buildWave active baseZ draws).1.getLast hne).lane false)
            && !(buildWave active baseZ draws).1.dropLast.isEmpty) = true
        · rw [if_pos hcond] at hc
          exact hc
        · rw [if_neg hcond] at hc
          simp at hc
      exact hnotmem (hlc ▸ List.mem_map_of_mem SpawnInfo.lane hcmem)

end Drive
